import Mathlib

/-!
Verification of the FashionAI outfit-recommendation core: a shallow embedding
in Lean 4 of `backend/color_analyzer.py` and `backend/outfit_recommender.py`
(the `DataBridge` tree, which the spec treats as canonical), together with
proofs of the specification claims.

Numbers are modelled by `ℚ` (the idealised real-number semantics of the
Python float arithmetic); RGB channels by `ℤ` (Python ints); fallible code
(hex parsing) by `Option`.
-/

namespace FashionAI

/-! ## Color space utility (`color_analyzer.py`)

`ColorAnalyzer.rgb_to_hsv` divides each channel by 255 and calls
`colorsys.rgb_to_hsv`, then scales to (0-360, 0-100, 0-100). -/

/-- `colorsys.rgb_to_hsv` from the Python standard library, on exact
rationals.  The final `h = (h/6.0) % 1.0` is `Int.fract` (Python `%` on a
positive modulus returns a value in `[0, 1)`). -/
def colorsysRgbToHsv (r g b : ℚ) : ℚ × ℚ × ℚ :=
  let maxc := max r (max g b)
  let minc := min r (min g b)
  let rangec := maxc - minc
  let v := maxc
  if minc = maxc then (0, 0, v)
  else
    let s := rangec / maxc
    let rc := (maxc - r) / rangec
    let gc := (maxc - g) / rangec
    let bc := (maxc - b) / rangec
    let h :=
      if r = maxc then bc - gc
      else if g = maxc then 2 + rc - bc
      else 4 + gc - rc
    (Int.fract (h / 6), s, v)

/-- `ColorAnalyzer.rgb_to_hsv`: channels scaled to `[0,1]`, result scaled to
H 0-360, S 0-100, V 0-100. -/
def rgb_to_hsv (rgb : ℤ × ℤ × ℤ) : ℚ × ℚ × ℚ :=
  let r : ℚ := (rgb.1 : ℚ) / 255
  let g : ℚ := (rgb.2.1 : ℚ) / 255
  let b : ℚ := (rgb.2.2 : ℚ) / 255
  let hsv := colorsysRgbToHsv r g b
  (hsv.1 * 360, hsv.2.1 * 100, hsv.2.2 * 100)

/-! ## Hex parsing (`ColorAnalyzer.hex_to_rgb`)

`hex_to_rgb` does `hex_color.lstrip('#')` and then
`int(hex_color[i:i+2], 16) for i in (0, 2, 4)`.  Python string slicing
clamps, so short inputs yield short slices; `int(s, 16)` strips surrounding
whitespace, allows one optional sign, and then requires a nonempty run of
hex digits (an underscore or an `0x` prefix is never valid in a slice of
length at most two, so they need no modelling).  A Python `ValueError`
(there is no `InvalidColorFormat` class anywhere in the repository) is
modelled by `none`. -/

def hexDigit? (c : Char) : Option ℕ :=
  if '0' ≤ c ∧ c ≤ '9' then some (c.toNat - '0'.toNat)
  else if 'a' ≤ c ∧ c ≤ 'f' then some (c.toNat - 'a'.toNat + 10)
  else if 'A' ≤ c ∧ c ≤ 'F' then some (c.toNat - 'A'.toNat + 10)
  else none

/-- Strip leading and trailing whitespace, as `int()` does before parsing. -/
def pyStrip (l : List Char) : List Char :=
  ((l.dropWhile Char.isWhitespace).reverse.dropWhile Char.isWhitespace).reverse

/-- Fold a nonempty run of hex digits into a number. -/
def hexDigits? (l : List Char) : Option ℕ :=
  match l with
  | [] => none
  | _ =>
    l.foldl (fun acc c => acc.bind fun n => (hexDigit? c).map fun d => n * 16 + d)
      (some 0)

/-- Python `int(s, 16)` on the character list of `s` (faithful for the
length-≤-2 slices `hex_to_rgb` produces). -/
def pyIntHex16 (l : List Char) : Option ℤ :=
  match pyStrip l with
  | [] => none
  | c :: rest =>
    if c = '+' then (hexDigits? rest).map fun n => (n : ℤ)
    else if c = '-' then (hexDigits? rest).map fun n => -(n : ℤ)
    else (hexDigits? (c :: rest)).map fun n => (n : ℤ)

/-- `ColorAnalyzer.hex_to_rgb`. -/
def hex_to_rgb (hex_color : String) : Option (ℤ × ℤ × ℤ) :=
  let t := hex_color.data.dropWhile (· = '#')
  match pyIntHex16 (t.take 2), pyIntHex16 ((t.drop 2).take 2),
      pyIntHex16 ((t.drop 4).take 2) with
  | some r, some g, some b => some (r, g, b)
  | _, _, _ => none

/-! ## Pairwise harmony (`ColorAnalyzer.are_colors_harmonious`) -/

/-- Circular hue difference: `abs(h1-h2)` folded into `[0,180]`. -/
def hueDiff (h1 h2 : ℚ) : ℚ :=
  if |h1 - h2| > 180 then 360 - |h1 - h2| else |h1 - h2|

/-- The base-score band chain of `are_colors_harmonious` (lines 494-524),
including the disjuncts above 180 that are unreachable for a folded hue
difference. -/
def harmonyBase (hue_diff : ℚ) : ℚ :=
  if 160 ≤ hue_diff ∧ hue_diff ≤ 200 then 0.95
  else if (105 ≤ hue_diff ∧ hue_diff ≤ 135) ∨ (225 ≤ hue_diff ∧ hue_diff ≤ 255) then 0.92
  else if (75 ≤ hue_diff ∧ hue_diff ≤ 105) ∨ (255 ≤ hue_diff ∧ hue_diff ≤ 285) then 0.90
  else if 15 ≤ hue_diff ∧ hue_diff ≤ 45 then 0.87
  else if (130 ≤ hue_diff ∧ hue_diff ≤ 170) ∨ (190 ≤ hue_diff ∧ hue_diff ≤ 210) then 0.82
  else if 45 < hue_diff ∧ hue_diff ≤ 75 then 0.78
  else if 75 < hue_diff ∧ hue_diff < 105 then 0.70
  else 0.55

/-- `ColorAnalyzer.are_colors_harmonious` after hex parsing: neutral
short-circuit, monochromatic branch, band base score, then the value bonus
followed by the saturation penalty. -/
def harmonyOfRgb (rgb1 rgb2 : ℤ × ℤ × ℤ) : ℚ :=
  let hsv1 := rgb_to_hsv rgb1
  let hsv2 := rgb_to_hsv rgb2
  let h1 := hsv1.1; let s1 := hsv1.2.1; let v1 := hsv1.2.2
  let h2 := hsv2.1; let s2 := hsv2.2.1; let v2 := hsv2.2.2
  let hue_diff := hueDiff h1 h2
  if s1 < 20 ∨ s2 < 20 then 0.85
  else if hue_diff < 15 then
    if |v1 - v2| > 30 then 0.88 else 0.75
  else
    let score := harmonyBase hue_diff
    let score := if |v1 - v2| > 25 then min (score + 0.05) 1 else score
    let score := if |s1 - s2| > 60 then max (score - 0.05) 0.5 else score
    score

/-- `are_colors_harmonious` on hex strings; a parse failure propagates. -/
def are_colors_harmonious (hex1 hex2 : String) : Option ℚ := do
  let rgb1 ← hex_to_rgb hex1
  let rgb2 ← hex_to_rgb hex2
  pure (harmonyOfRgb rgb1 rgb2)

/-! ## Scheme classification (`ColorAnalyzer.get_color_scheme_type`)

The statements after `return 'custom'` (lines 578-592) are unreachable and
are not part of the function's behaviour. -/

def schemeTypeOfRgb (rgb1 rgb2 : ℤ × ℤ × ℤ) : String :=
  let hsv1 := rgb_to_hsv rgb1
  let hsv2 := rgb_to_hsv rgb2
  let s1 := hsv1.2.1
  let s2 := hsv2.2.1
  if s1 < 20 ∨ s2 < 20 then "neutral"
  else
    let hue_diff := hueDiff hsv1.1 hsv2.1
    if hue_diff < 15 then "monochromatic"
    else if 15 ≤ hue_diff ∧ hue_diff ≤ 45 then "analogous"
    else if 75 ≤ hue_diff ∧ hue_diff ≤ 105 then "tetradic"
    else if 105 ≤ hue_diff ∧ hue_diff ≤ 135 then "triadic"
    else if 130 ≤ hue_diff ∧ hue_diff ≤ 170 then "split-complementary"
    else if 160 ≤ hue_diff ∧ hue_diff ≤ 200 then "complementary"
    else "custom"

/-- `get_color_scheme_type` on hex strings. -/
def get_color_scheme_type (hex1 hex2 : String) : Option String := do
  let rgb1 ← hex_to_rgb hex1
  let rgb2 ← hex_to_rgb hex2
  pure (schemeTypeOfRgb rgb1 rgb2)

/-! ## Color naming

`ColorAnalyzer` defines `get_color_name` twice.  The first definition
(lines 177-216, RGB-tuple argument, table lookup with hue fallback) is
shadowed by the second (lines 603-639, hex-string argument, hue buckets
only): in Python the later method definition silently replaces the earlier
one, so the second is the class's effective `get_color_name`. -/

/-- The curated color-name table from `ColorAnalyzer.__init__`, in source
(insertion) order. -/
def colorNames : List ((ℤ × ℤ × ℤ) × String) :=
  [ ((255, 0, 0), "Red"), ((220, 20, 60), "Crimson"), ((178, 34, 34), "Firebrick"),
    ((255, 69, 0), "Red Orange"), ((255, 99, 71), "Tomato"), ((250, 128, 114), "Salmon"),
    ((255, 192, 203), "Pink"), ((255, 182, 193), "Light Pink"), ((219, 112, 147), "Pale Violet Red"),
    ((255, 20, 147), "Deep Pink"), ((199, 21, 133), "Medium Violet Red"), ((255, 0, 255), "Magenta"),
    ((255, 105, 180), "Hot Pink"),
    ((255, 165, 0), "Orange"), ((255, 140, 0), "Dark Orange"), ((255, 127, 80), "Coral"),
    ((255, 160, 122), "Light Salmon"), ((255, 218, 185), "Peach"),
    ((255, 255, 0), "Yellow"), ((255, 215, 0), "Gold"), ((255, 255, 224), "Light Yellow"),
    ((255, 250, 205), "Lemon"), ((240, 230, 140), "Khaki"),
    ((0, 255, 0), "Lime"), ((0, 128, 0), "Green"), ((34, 139, 34), "Forest Green"),
    ((144, 238, 144), "Light Green"), ((143, 188, 143), "Dark Sea Green"),
    ((107, 142, 35), "Olive"), ((154, 205, 50), "Yellow Green"),
    ((0, 0, 255), "Blue"), ((0, 0, 139), "Dark Blue"), ((0, 191, 255), "Deep Sky Blue"),
    ((135, 206, 235), "Sky Blue"), ((173, 216, 230), "Light Blue"),
    ((70, 130, 180), "Steel Blue"), ((100, 149, 237), "Cornflower Blue"),
    ((0, 128, 128), "Teal"), ((64, 224, 208), "Turquoise"), ((0, 255, 255), "Cyan"),
    ((128, 0, 128), "Purple"), ((138, 43, 226), "Blue Violet"), ((148, 0, 211), "Dark Violet"),
    ((186, 85, 211), "Medium Orchid"), ((221, 160, 221), "Plum"), ((238, 130, 238), "Violet"),
    ((75, 0, 130), "Indigo"), ((147, 112, 219), "Medium Purple"),
    ((165, 42, 42), "Brown"), ((139, 69, 19), "Saddle Brown"), ((160, 82, 45), "Sienna"),
    ((210, 105, 30), "Chocolate"), ((205, 133, 63), "Peru"), ((244, 164, 96), "Sandy Brown"),
    ((222, 184, 135), "Burlywood"), ((210, 180, 140), "Tan"),
    ((0, 0, 0), "Black"), ((255, 255, 255), "White"), ((128, 128, 128), "Gray"),
    ((192, 192, 192), "Silver"), ((211, 211, 211), "Light Gray"), ((169, 169, 169), "Dark Gray"),
    ((245, 245, 220), "Beige"), ((255, 248, 220), "Cornsilk"), ((250, 240, 230), "Linen"),
    ((245, 222, 179), "Wheat"), ((255, 228, 196), "Bisque"), ((255, 235, 205), "Blanched Almond"),
    ((0, 0, 128), "Navy"), ((25, 25, 112), "Midnight Blue"), ((128, 0, 0), "Maroon"),
    ((139, 0, 0), "Dark Red"), ((85, 107, 47), "Dark Olive Green") ]

/-- `ColorAnalyzer.get_hue_based_name` (lines 218-253). -/
def get_hue_based_name (h s v : ℚ) : String :=
  let pre := if v < 30 then "Dark " else if v > 80 ∧ s < 50 then "Light " else ""
  let base :=
    if h < 15 ∨ h ≥ 345 then "Red"
    else if h < 45 then "Orange"
    else if h < 75 then "Yellow"
    else if h < 150 then "Green"
    else if h < 210 then "Cyan"
    else if h < 270 then "Blue"
    else if h < 330 then "Purple"
    else "Pink"
  pre ++ base

/-- Squared Euclidean RGB distance.  The source compares
`np.sqrt(Σ (a-b)²)` values with `<` and with the literal `100`; comparing
squared distances with squared thresholds is order-isomorphic, which keeps
the definition inside `ℚ`. -/
def rgbDist2 (a b : ℤ × ℤ × ℤ) : ℤ :=
  (a.1 - b.1) ^ 2 + (a.2.1 - b.2.1) ^ 2 + (a.2.2 - b.2.2) ^ 2

/-- The nearest-name scan of the shadowed `get_color_name`:
`min_distance = ∞`, `closest_name = 'Unknown'`, strict `<` update over the
table in insertion order (so the first nearest entry wins). -/
def nearestColorName (rgb : ℤ × ℤ × ℤ) : Option ℤ × String :=
  colorNames.foldl
    (fun (acc : Option ℤ × String) entry =>
      let d2 := rgbDist2 rgb entry.1
      match acc.1 with
      | none => (some d2, entry.2)
      | some m => if d2 < m then (some d2, entry.2) else acc)
    (none, "Unknown")

/-- The first, shadowed `ColorAnalyzer.get_color_name` (lines 177-216):
neutral tier (saturation < 15), then nearest-name lookup in `colorNames`,
with the hue-bucket fallback when the minimum distance exceeds 100. -/
def shadowedGetColorName (rgb : ℤ × ℤ × ℤ) : String :=
  let hsv := rgb_to_hsv rgb
  let h := hsv.1; let s := hsv.2.1; let v := hsv.2.2
  if s < 15 then
    if v < 20 then "Black"
    else if v > 90 then "White"
    else if v > 70 then "Light Gray"
    else if v < 40 then "Dark Gray"
    else "Gray"
  else
    let best := nearestColorName rgb
    match best.1 with
    | none => best.2
    | some m => if m > 100 ^ 2 then get_hue_based_name h s v else best.2

/-- The effective `ColorAnalyzer.get_color_name` (the second definition,
lines 603-639): hex argument, neutral tier at saturation < 20
(White / Black / Gray only), then pure hue buckets. -/
def get_color_name (hex_color : String) : Option String :=
  (hex_to_rgb hex_color).map fun rgb =>
    let hsv := rgb_to_hsv rgb
    let h := hsv.1; let s := hsv.2.1; let v := hsv.2.2
    if s < 20 then
      if v > 80 then "White"
      else if v < 20 then "Black"
      else "Gray"
    else
      if h < 15 ∨ h ≥ 345 then "Red"
      else if h < 45 then "Orange"
      else if h < 75 then "Yellow"
      else if h < 165 then "Green"
      else if h < 255 then "Blue"
      else if h < 285 then "Purple"
      else if h < 345 then "Pink"
      else "Red"

/-! ## Data model for the recommender (`outfit_recommender.py`)

Wardrobe items arrive from the external classification and color-extraction
collaborators (spec §3, §6).  Colors are carried pre-parsed as RGB triples
(the collaborator supplies both `hex` and `rgb` per color; §3); the items'
embedding vectors are rational vectors.  The deep-learning classifier is an
external collaborator specified only at its boundary (spec §1, §6), and its
`compute_similarity` involves floating-point vector norms, so the
recommender is parametrized by the similarity oracle `simFn` it would call
for each pair of embeddings. -/

/-- An embedding vector. -/
abbrev Emb : Type := List ℚ

/-- A wardrobe item as consumed by `OutfitRecommender`.  `type?` models the
`'type'` key, which `item.get('type')` reads and which may be absent;
`dominantColor?` models `item.get('dominant_color', '#808080')`;
`colors` is the ordered color list, whose index 1 is the secondary color. -/
structure Item where
  id : String
  type? : Option String
  dominantColor? : Option (ℤ × ℤ × ℤ)
  colors : List (ℤ × ℤ × ℤ)
  features? : Option Emb
deriving DecidableEq, Inhabited

/-- An occasion rule (`OutfitRecommender.occasion_rules` values). -/
structure Rules where
  combos : List (List String)
  colorStyle : String
  formality : ℚ
deriving DecidableEq, Inhabited

/-- A produced outfit recommendation (the dict appended in
`generate_recursive`). -/
structure Outfit where
  items : List Item
  score : ℚ
  totalItems : ℕ
  occasion : String
  types : List (Option String)
  colorScheme : String
  colorSchemeConfidence : ℚ
  dominantColors : List (ℤ × ℤ × ℤ)
deriving DecidableEq, Inhabited

/-- All unordered pairs `(i, j)` with `i < j`, in the order of the nested
`for i / for j in range(i+1, ...)` loops. -/
def upairs {α : Type} : List α → List (α × α)
  | [] => []
  | x :: xs => (xs.map fun y => (x, y)) ++ upairs xs

/-- The `'#808080'` fallback color, parsed. -/
def grayRgb : ℤ × ℤ × ℤ := (128, 128, 128)

/-- The dominant (and, when present, secondary) colors collected by
`_calculate_color_harmony`. -/
def outfitPairColors (outfit_items : List Item) : List (ℤ × ℤ × ℤ) :=
  outfit_items.flatMap fun item =>
    (item.dominantColor?.getD grayRgb) ::
      (if item.colors.length > 1 then [item.colors.getD 1 (0, 0, 0)] else [])

/-- `OutfitRecommender._calculate_color_harmony`: average pairwise harmony
over dominant+secondary colors, then the `color_style` multiplicative
adjustments, then the scheme-variety bonus. -/
def _calculate_color_harmony (outfit_items : List Item) (color_style : String) : ℚ :=
  if outfit_items.length < 2 then 0.88
  else
    let colors := outfitPairColors outfit_items
    let pairs := upairs colors
    let harmony_scores := pairs.map fun p => harmonyOfRgb p.1 p.2
    let scheme_types := pairs.map fun p => schemeTypeOfRgb p.1 p.2
    if harmony_scores = [] then 0.88
    else
      let avg := harmony_scores.sum / (harmony_scores.length : ℚ)
      let avg :=
        if color_style = "conservative" then
          let avg :=
            if scheme_types.contains "analogous" ∨ scheme_types.contains "monochromatic"
            then min (avg * 1.08) 1 else avg
          if scheme_types.contains "complementary" ∧ avg > 0.92 then avg * 0.96 else avg
        else if color_style = "bold" then
          let avg := if scheme_types.contains "complementary" then min (avg * 1.10) 1 else avg
          if scheme_types.contains "triadic" then min (avg * 1.08) 1 else avg
        else if color_style = "professional" then
          let avg := if scheme_types.contains "neutral" then min (avg * 1.12) 1 else avg
          if scheme_types.contains "monochromatic" then min (avg * 1.06) 1 else avg
        else if color_style = "harmonious" then
          let avg := if scheme_types.contains "analogous" then min (avg * 1.10) 1 else avg
          if scheme_types.contains "monochromatic" then min (avg * 1.08) 1 else avg
        else if color_style = "vibrant" then
          if scheme_types.contains "triadic" ∨ scheme_types.contains "tetradic"
          then min (avg * 1.08) 1 else avg
        else avg
      if scheme_types.dedup.length > 1 then min (avg * 1.03) 1 else avg

/-- `OutfitRecommender._calculate_style_similarity`, parametrized by the
classifier's similarity oracle. -/
def _calculate_style_similarity (simFn : Emb → Emb → ℚ) (outfit_items : List Item) : ℚ :=
  if outfit_items.length < 2 then 0.80
  else
    let features_list := outfit_items.filterMap (·.features?)
    if features_list.length < 2 then 0.75
    else
      let sims := (upairs features_list).map fun p => simFn p.1 p.2
      if sims = [] then 0.75
      else 0.6 + (sims.sum / (sims.length : ℚ)) * 0.4

/-- The `formality_scores` table with its `.get(type, 0.5)` default, applied
to `item.get('type', 'other')`. -/
def formalityScore (t : String) : ℚ :=
  if t = "dress" then 0.7
  else if t = "blazer" then 0.9
  else if t = "top" then 0.5
  else if t = "bottom" then 0.5
  else if t = "shoes" then 0.6
  else if t = "other" then 0.4
  else 0.5

/-- `OutfitRecommender._calculate_occasion_fit`. -/
def _calculate_occasion_fit (outfit_items : List Item) (rules : Rules) : ℚ :=
  let outfit_formality :=
    (outfit_items.map fun it => formalityScore (it.type?.getD "other")).sum
      / (outfit_items.length : ℚ)
  max (1 - |outfit_formality - rules.formality| * 0.8) 0.5

/-- `OutfitRecommender._get_outfit_color_scheme`: dominant scheme among
pairwise classifications.  Python's `max(counts, key=counts.get)` returns
the first key (in dict insertion order, i.e. first-occurrence order) whose
count is maximal; the fold below does the same. -/
def _get_outfit_color_scheme (outfit_items : List Item) : String × ℚ × List (ℤ × ℤ × ℤ) :=
  if outfit_items.length < 2 then
    let dc := (outfit_items.head?.map fun it => it.dominantColor?.getD grayRgb).getD grayRgb
    ("monochromatic", 0.90, [dc])
  else
    let colors := outfit_items.map fun it => it.dominantColor?.getD grayRgb
    let schemes := (upairs colors).map fun p => schemeTypeOfRgb p.1 p.2
    match schemes.foldl (fun (acc : List String) s => if s ∈ acc then acc else acc ++ [s]) [] with
    | [] => ("custom", 0.50, colors)
    | k :: ks =>
      let dom := ks.foldl (fun best k' => if schemes.count k' > schemes.count best then k' else best) k
      (dom, (schemes.count dom : ℚ) / (schemes.length : ℚ), colors)

/-- `OutfitRecommender._calculate_outfit_score`: the fixed weighted sum.
The `occasion` argument is taken (and ignored) exactly as in the source. -/
def _calculate_outfit_score (simFn : Emb → Emb → ℚ) (outfit_items : List Item)
    (_occasion : String) (rules : Rules) : ℚ :=
  if outfit_items = [] then 0
  else
    let color_score := _calculate_color_harmony outfit_items rules.colorStyle
    let style_score := _calculate_style_similarity simFn outfit_items
    let occasion_score := _calculate_occasion_fit outfit_items rules
    let variety_score := min ((outfit_items.length : ℚ) / 3) 1
    color_score * 0.40 + style_score * 0.30 + occasion_score * 0.20 + variety_score * 0.10

/-! ## Combination validator and enumerator -/

/-- The pattern-validity check of `_generate_combinations` (lines 189-210):
`pattern_set == {'dress'}`, or top+bottom, or blazer+top+bottom, or
blazer+dress, or (shoes present and the rest contains top+bottom, or a
dress, or blazer+top+bottom).  `top`, `bottom`, `dress`, `blazer` differ
from `shoes`, so membership in `pattern_set - {'shoes'}` coincides with
membership in the pattern. -/
def patternValid (p : List String) : Bool :=
  let v1 := !p.isEmpty && p.all (· == "dress")
  let v2 := p.contains "top" && p.contains "bottom"
  let v3 := p.contains "blazer" && p.contains "top" && p.contains "bottom"
  let v4 := p.contains "blazer" && p.contains "dress"
  let vShoes := p.contains "shoes" &&
    ((p.contains "top" && p.contains "bottom") || p.contains "dress" ||
      (p.contains "blazer" && p.contains "top" && p.contains "bottom"))
  v1 || v2 || v3 || v4 || vShoes

/-- The per-request context threaded through the recursive enumeration.  -/
structure RecCtx where
  simFn : Emb → Emb → ℚ
  itemsByType : String → List Item
  occasion : String
  rules : Rules

/-- The completion branch of `generate_recursive` (`pattern_index >= len`):
final duplicate-type validation, scoring, scheme metadata, and the
`score >= 0.50` acceptance threshold.  `none` means the assignment is
rejected. -/
def completedOutfit (simFn : Emb → Emb → ℚ) (occasion : String) (rules : Rules)
    (current : List Item) : Option Outfit :=
  let outfit_types := current.map (·.type?)
  if ¬ outfit_types.Nodup then none
  else
    let score := _calculate_outfit_score simFn current occasion rules
    let info := _get_outfit_color_scheme current
    if score ≥ 0.50 then
      some ⟨current, score, current.length, occasion, outfit_types, info.1, info.2.1, info.2.2⟩
    else none

/-- `generate_recursive`: depth-first over pattern positions, at most the
first 5 items per type, skipping already-used types, short-circuiting when
the accumulated outfit count reaches the cap.  The Python `for` loop with
its cap-`break` is a fold whose body is the identity once the cap is
reached (breaking and no-op-continuing are extensionally equal). -/
def genRec (ctx : RecCtx) (cap : ℕ) : List String → List Item → List String → List Outfit → List Outfit
  | [], current, _, acc =>
    acc ++ (completedOutfit ctx.simFn ctx.occasion ctx.rules current).toList
  | t :: rest, current, used, acc =>
    if acc.length ≥ cap then acc
    else if used.contains t then acc
    else
      ((ctx.itemsByType t).take 5).foldl
        (fun acc2 item =>
          if acc2.length ≥ cap then acc2
          else if item.type? ≠ some t then acc2
          else genRec ctx cap rest (current ++ [item]) (used ++ [t]) acc2)
        acc

/-- `OutfitRecommender._generate_combinations`: availability check,
duplicate-pattern check, pattern validity, then the bounded search. -/
def _generate_combinations (simFn : Emb → Emb → ℚ) (itemsByType : String → List Item)
    (pattern : List String) (occasion : String) (rules : Rules)
    (max_combinations : ℕ) : List Outfit :=
  if ¬ pattern.all (fun t => !(itemsByType t).isEmpty) then []
  else if ¬ pattern.Nodup then []
  else if ¬ patternValid pattern then []
  else genRec ⟨simFn, itemsByType, occasion, rules⟩ max_combinations pattern [] [] []

/-! ## Occasion rules and the orchestrator -/

def casualRules : Rules :=
  ⟨[["top", "bottom"], ["dress"], ["top", "bottom", "shoes"]], "relaxed", 0.3⟩

def formalRules : Rules :=
  ⟨[["blazer", "top", "bottom"], ["dress"], ["top", "bottom"], ["blazer", "dress"]],
    "conservative", 0.9⟩

def businessRules : Rules :=
  ⟨[["blazer", "top", "bottom"], ["top", "bottom"], ["blazer", "dress"], ["dress"]],
    "professional", 0.8⟩

def partyRules : Rules :=
  ⟨[["dress"], ["top", "bottom"], ["blazer", "top", "bottom"], ["top", "bottom", "shoes"]],
    "bold", 0.5⟩

def dateRules : Rules :=
  ⟨[["dress"], ["top", "bottom"], ["blazer", "top", "bottom"]], "harmonious", 0.6⟩

def sportsRules : Rules :=
  ⟨[["top", "bottom"], ["top", "bottom", "shoes"]], "vibrant", 0.2⟩

/-- `self.occasion_rules.get(occasion, self.occasion_rules['casual'])`. -/
def occasionRulesFor (occ : String) : Rules :=
  if occ = "casual" then casualRules
  else if occ = "formal" then formalRules
  else if occ = "business" then businessRules
  else if occ = "party" then partyRules
  else if occ = "date" then dateRules
  else if occ = "sports" then sportsRules
  else casualRules

/-- Grouping the wardrobe by `item.get('type', 'other')`: appending in
wardrobe order makes each group the order-preserving filter. -/
def groupByType (items : List Item) (t : String) : List Item :=
  items.filter fun it => it.type?.getD "other" == t

/-- The pattern loop of `recommend_outfits`: each pattern receives the
remaining budget, and the loop breaks once the budget is exhausted. -/
def tryPatterns (simFn : Emb → Emb → ℚ) (itemsByType : String → List Item)
    (occasion : String) (rules : Rules) (max_outfits : ℕ) :
    List (List String) → List Outfit → List Outfit
  | [], acc => acc
  | p :: ps, acc =>
    let generated :=
      _generate_combinations simFn itemsByType p occasion rules (max_outfits - acc.length)
    let acc2 := acc ++ generated
    if acc2.length ≥ max_outfits then acc2
    else tryPatterns simFn itemsByType occasion rules max_outfits ps acc2

/-- Stable insertion of an outfit into a descending-by-score list: it goes
after every element whose score is ≥ its own, so earlier-discovered
equal-score outfits stay in front. -/
def insertScored (o : Outfit) : List Outfit → List Outfit
  | [] => [o]
  | x :: xs => if x.score ≥ o.score then x :: insertScored o xs else o :: x :: xs

/-- `outfits.sort(key=lambda x: x['score'], reverse=True)` — Python's sort
is stable, and a stable descending sort is determined extensionally by the
key, so this insertion sort (processing discovery order left to right)
produces exactly the same list. -/
def sortByScoreDesc (l : List Outfit) : List Outfit :=
  l.foldl (fun acc o => insertScored o acc) []

/-- `OutfitRecommender.recommend_outfits`: the single entry point.  The
source's `items_per_outfit` parameter is never read by the body and is
omitted here. -/
def recommend_outfits (simFn : Emb → Emb → ℚ) (clothing_items : List Item)
    (occasion : String) (max_outfits : ℕ) : List Outfit :=
  if clothing_items.isEmpty then []
  else
    let rules := occasionRulesFor occasion
    let itemsByType := groupByType clothing_items
    let outfits := tryPatterns simFn itemsByType occasion rules max_outfits rules.combos []
    (sortByScoreDesc outfits).take max_outfits

/-! ## Unbounded enumeration (proof-side specification)

`genAll` lists every acceptable completion in discovery order, with no cap;
the bounded search is its `List.take`. -/

def genAll (ctx : RecCtx) : List String → List Item → List String → List Outfit
  | [], current, _ =>
    (completedOutfit ctx.simFn ctx.occasion ctx.rules current).toList
  | t :: rest, current, used =>
    if used.contains t then []
    else
      (((ctx.itemsByType t).take 5).filter fun item => item.type? = some t).flatMap
        fun item => genAll ctx rest (current ++ [item]) (used ++ [t])

/-- Candidates of one pattern, uncapped, after the three up-front checks. -/
def genCombosAll (ctx : RecCtx) (pattern : List String) : List Outfit :=
  if ¬ pattern.all (fun t => !(ctx.itemsByType t).isEmpty) then []
  else if ¬ pattern.Nodup then []
  else if ¬ patternValid pattern then []
  else genAll ctx pattern [] []

/-- All candidates of a request in discovery order (pattern order, then
item order), uncapped. -/
def allCandidates (ctx : RecCtx) : List Outfit :=
  ctx.rules.combos.flatMap (genCombosAll ctx)

/-! ## Claim-side definitions

Each `claim…` definition below transcribes the words of a claim of the
specification, to be compared with the corresponding definition translated
from the source. -/

/-- C1's two-tier naming algorithm, as the claim states it: neutral tier at
saturation < 20 with Black/White/Light Gray/Dark Gray/Gray, otherwise the
minimum-Euclidean-distance name from the curated table unless that minimum
exceeds 100, in which case the hue-bucket name. -/
def claimNameC1 (rgb : ℤ × ℤ × ℤ) : String :=
  let hsv := rgb_to_hsv rgb
  let h := hsv.1; let s := hsv.2.1; let v := hsv.2.2
  if s < 20 then
    if v < 20 then "Black"
    else if v > 90 then "White"
    else if v > 70 then "Light Gray"
    else if v < 40 then "Dark Gray"
    else "Gray"
  else
    let best := nearestColorName rgb
    match best.1 with
    | none => best.2
    | some m => if m > 100 ^ 2 then get_hue_based_name h s v else best.2

/-- The amended C1: what the effective (second) `get_color_name` actually
does — neutral tier at saturation < 20 returning only White (v > 80),
Black (v < 20) or Gray, then pure hue buckets with no table lookup. -/
def amendedNameC1 (rgb : ℤ × ℤ × ℤ) : String :=
  let hsv := rgb_to_hsv rgb
  let h := hsv.1; let s := hsv.2.1; let v := hsv.2.2
  if s < 20 then
    if v > 80 then "White" else if v < 20 then "Black" else "Gray"
  else if h < 15 ∨ h ≥ 345 then "Red"
  else if h < 45 then "Orange"
  else if h < 75 then "Yellow"
  else if h < 165 then "Green"
  else if h < 255 then "Blue"
  else if h < 285 then "Purple"
  else if h < 345 then "Pink"
  else "Red"

/-- C2's base-score bands, in the claim's stated priority order
(complementary, triadic, tetradic, analogous, split-complementary, near,
moderate, else). -/
def claimBandC2 (d : ℚ) : ℚ :=
  if 160 ≤ d ∧ d ≤ 200 then 0.95
  else if 105 ≤ d ∧ d ≤ 135 then 0.92
  else if 75 ≤ d ∧ d ≤ 105 then 0.90
  else if 15 ≤ d ∧ d ≤ 45 then 0.87
  else if 130 ≤ d ∧ d ≤ 170 then 0.82
  else if 45 < d ∧ d ≤ 75 then 0.78
  else if 75 < d ∧ d < 105 then 0.70
  else 0.55

/-- C2's full harmony computation for non-neutral pairs, as the claim
states it: circular hue difference `min(|hA−hB|, 360−|hA−hB|)`, the band
score, then the value bonus and saturation penalty. -/
def claimHarmonyC2 (rgb1 rgb2 : ℤ × ℤ × ℤ) : ℚ :=
  let hsv1 := rgb_to_hsv rgb1
  let hsv2 := rgb_to_hsv rgb2
  let d := min |hsv1.1 - hsv2.1| (360 - |hsv1.1 - hsv2.1|)
  let score := claimBandC2 d
  let score := if |hsv1.2.2 - hsv2.2.2| > 25 then min (score + 0.05) 1 else score
  if |hsv1.2.1 - hsv2.2.1| > 60 then max (score - 0.05) 0.5 else score

/-- C4's scheme classification, as the claim states it: neutral first, then
the bands in the claim's listed order, `custom` when none match. -/
def claimSchemeC4 (rgb1 rgb2 : ℤ × ℤ × ℤ) : String :=
  let hsv1 := rgb_to_hsv rgb1
  let hsv2 := rgb_to_hsv rgb2
  if hsv1.2.1 < 20 ∨ hsv2.2.1 < 20 then "neutral"
  else
    let d := min |hsv1.1 - hsv2.1| (360 - |hsv1.1 - hsv2.1|)
    if d < 15 then "monochromatic"
    else if 15 ≤ d ∧ d ≤ 45 then "analogous"
    else if 75 ≤ d ∧ d ≤ 105 then "tetradic"
    else if 105 ≤ d ∧ d ≤ 135 then "triadic"
    else if 130 ≤ d ∧ d ≤ 170 then "split-complementary"
    else if 160 ≤ d ∧ d ≤ 200 then "complementary"
    else "custom"

/-- C5's allowed base type-sets, as the claim states them: exactly
`{dress}`; containing both `top` and `bottom`; containing `blazer` with
both `top` and `bottom`; containing `blazer` with `dress`. -/
def claimBaseC5 (p : List String) : Bool :=
  (!p.isEmpty && p.all (· == "dress")) ||
  (p.contains "top" && p.contains "bottom") ||
  (p.contains "blazer" && p.contains "top" && p.contains "bottom") ||
  (p.contains "blazer" && p.contains "dress")

/-- C5's allowed type-sets: a base set, or a base set with `shoes` added. -/
def claimAllowedC5 (p : List String) : Bool :=
  claimBaseC5 p || (p.contains "shoes" && claimBaseC5 (p.filter (· ≠ "shoes")))

/-- C9's notion of a well-formed hex color: `'#'` followed by exactly six
hexadecimal digits. -/
def isCanonicalHex (s : String) : Bool :=
  match s.data with
  | c :: rest => c == '#' && rest.length == 6 && (rest.all fun ch => (hexDigit? ch).isSome)
  | [] => false

/-! ## Concrete wardrobes for witnesses and counterexamples -/

/-- A trivial similarity oracle (the concrete wardrobes below carry no
embeddings, so it is never consulted). -/
def simFn0 : Emb → Emb → ℚ := fun _ _ => 0

def iTop : Item := ⟨"t1", some "top", some grayRgb, [], none⟩
def iBottom : Item := ⟨"b1", some "bottom", some grayRgb, [], none⟩
def iDress : Item := ⟨"d1", some "dress", some grayRgb, [], none⟩
def iShoes : Item := ⟨"s1", some "shoes", some grayRgb, [], none⟩
def iOther : Item := ⟨"o1", some "other", some grayRgb, [], none⟩

/-- A two-item wardrobe: one top and one bottom. -/
def wardrobeTB : List Item := [iTop, iBottom]

/-- A wardrobe for the C5 counterexample pattern `(dress, other, shoes)`. -/
def wardrobeDOS : List Item := [iDress, iOther, iShoes]

/-! # Theorems -/

/-! ## Hue-range helpers -/

theorem colorsys_hue_bounds (r g b : ℚ) :
    0 ≤ (colorsysRgbToHsv r g b).1 ∧ (colorsysRgbToHsv r g b).1 < 1 := by
  simp only [colorsysRgbToHsv]
  split_ifs
  all_goals
    first
    | exact ⟨le_refl 0, by norm_num⟩
    | exact ⟨Int.fract_nonneg _, Int.fract_lt_one _⟩

theorem rgb_to_hsv_hue_bounds (rgb : ℤ × ℤ × ℤ) :
    0 ≤ (rgb_to_hsv rgb).1 ∧ (rgb_to_hsv rgb).1 < 360 := by
  obtain ⟨hlo, hhi⟩ :=
    colorsys_hue_bounds ((rgb.1 : ℚ) / 255) ((rgb.2.1 : ℚ) / 255) ((rgb.2.2 : ℚ) / 255)
  simp only [rgb_to_hsv]
  constructor
  · positivity
  · nlinarith

theorem hueDiff_le_of_bounds {h1 h2 : ℚ} (b1 : 0 ≤ h1) (b1' : h1 < 360)
    (b2 : 0 ≤ h2) (b2' : h2 < 360) : hueDiff h1 h2 ≤ 180 := by
  have habs : |h1 - h2| ≤ 360 := abs_le.mpr ⟨by linarith, by linarith⟩
  unfold hueDiff
  split_ifs with h <;> linarith

theorem hueDiff_eq_min {h1 h2 : ℚ} (b1 : 0 ≤ h1) (b1' : h1 < 360)
    (b2 : 0 ≤ h2) (b2' : h2 < 360) :
    hueDiff h1 h2 = min |h1 - h2| (360 - |h1 - h2|) := by
  have habs : |h1 - h2| ≤ 360 := abs_le.mpr ⟨by linarith, by linarith⟩
  unfold hueDiff
  split_ifs with h
  · rw [min_eq_right (by linarith)]
  · rw [min_eq_left (by linarith)]

theorem harmonyBase_eq_claimBand {d : ℚ} (hd : d ≤ 180) :
    harmonyBase d = claimBandC2 d := by
  have h2 : ¬(225 ≤ d ∧ d ≤ 255) := by rintro ⟨a, -⟩; linarith
  have h3 : ¬(255 ≤ d ∧ d ≤ 285) := by rintro ⟨a, -⟩; linarith
  have h5 : ¬(190 ≤ d ∧ d ≤ 210) := by rintro ⟨a, -⟩; linarith
  unfold harmonyBase claimBandC2
  simp only [h2, h3, h5, or_false]

/-! ## C2: band priority and adjustments of the harmony score -/

/-- C2: for every pair of non-neutral colors (both saturations ≥ 20) whose
circular hue difference is at least 15, `are_colors_harmonious` computes
exactly the claimed base score (bands tried in the claimed priority order,
so d = 105 scores 0.92) followed by the claimed value-contrast bonus and
saturation-mismatch penalty. -/
theorem harmony_band_scores (rgb1 rgb2 : ℤ × ℤ × ℤ)
    (hs1 : 20 ≤ (rgb_to_hsv rgb1).2.1) (hs2 : 20 ≤ (rgb_to_hsv rgb2).2.1)
    (hd : 15 ≤ min |(rgb_to_hsv rgb1).1 - (rgb_to_hsv rgb2).1|
      (360 - |(rgb_to_hsv rgb1).1 - (rgb_to_hsv rgb2).1|)) :
    harmonyOfRgb rgb1 rgb2 = claimHarmonyC2 rgb1 rgb2 := by
  obtain ⟨b1, b1'⟩ := rgb_to_hsv_hue_bounds rgb1
  obtain ⟨b2, b2'⟩ := rgb_to_hsv_hue_bounds rgb2
  have deq := hueDiff_eq_min b1 b1' b2 b2'
  have d180 := hueDiff_le_of_bounds b1 b1' b2 b2'
  simp only [harmonyOfRgb, claimHarmonyC2]
  rw [if_neg (not_or.mpr ⟨not_lt.mpr hs1, not_lt.mpr hs2⟩),
    if_neg (by rw [deq]; exact not_lt.mpr hd), harmonyBase_eq_claimBand d180, deq]

/-- Witness for C2 at red vs green (hue difference 120, the triadic band). -/
theorem harmony_band_scores_witness :
    harmonyOfRgb (255, 0, 0) (0, 255, 0) = claimHarmonyC2 (255, 0, 0) (0, 255, 0) ∧
    claimHarmonyC2 (255, 0, 0) (0, 255, 0) = 0.92 :=
  ⟨harmony_band_scores (255, 0, 0) (0, 255, 0) (by with_unfolding_all decide)
      (by with_unfolding_all decide) (by with_unfolding_all decide),
    by with_unfolding_all decide⟩

/-! ## C3: neutral short-circuit -/

/-- C3: whenever either color has saturation < 20, the harmony score is
exactly 0.85, with no adjustment; in particular
`harmony("#808080", "#FF0000") = 0.85`. -/
theorem harmony_neutral_short_circuit :
    (∀ rgb1 rgb2 : ℤ × ℤ × ℤ,
      (rgb_to_hsv rgb1).2.1 < 20 ∨ (rgb_to_hsv rgb2).2.1 < 20 →
        harmonyOfRgb rgb1 rgb2 = 0.85) ∧
    are_colors_harmonious "#808080" "#FF0000" = some 0.85 := by
  constructor
  · intro rgb1 rgb2 h
    simp only [harmonyOfRgb]
    rw [if_pos h]
  · with_unfolding_all decide

/-- Witness for C3: gray against red. -/
theorem harmony_neutral_witness : harmonyOfRgb (128, 128, 128) (255, 0, 0) = 0.85 :=
  harmony_neutral_short_circuit.1 (128, 128, 128) (255, 0, 0) (by with_unfolding_all decide)

/-! ## C10: the harmony score lies in [0.5, 1] -/

theorem harmonyBase_bounds (d : ℚ) : 0.55 ≤ harmonyBase d ∧ harmonyBase d ≤ 0.95 := by
  unfold harmonyBase
  split_ifs <;> norm_num

/-- C10: for every pair of colors the pairwise harmony score lies in the
closed interval [0.5, 1]: the lowest base is 0.55, the only penalty floors
at 0.5, the bonus caps at 1, and every early return is inside the
interval. -/
theorem adjust_bounds (bs : ℚ) (hb1 : 0.55 ≤ bs) (hb2 : bs ≤ 0.95)
    (c1 c2 : Prop) [Decidable c1] [Decidable c2] :
    1/2 ≤ (if c2 then max ((if c1 then min (bs + 0.05) 1 else bs) - 0.05) 0.5
            else if c1 then min (bs + 0.05) 1 else bs) ∧
    (if c2 then max ((if c1 then min (bs + 0.05) 1 else bs) - 0.05) 0.5
      else if c1 then min (bs + 0.05) 1 else bs) ≤ 1 := by
  split_ifs
  · refine ⟨le_max_of_le_right (by norm_num), max_le ?_ (by norm_num)⟩
    have hm : min (bs + 0.05) 1 ≤ 1 := min_le_right _ _
    linarith
  · exact ⟨le_max_of_le_right (by norm_num), max_le (by linarith) (by norm_num)⟩
  · exact ⟨le_min (by linarith) (by norm_num), min_le_right _ _⟩
  · exact ⟨by linarith, by linarith⟩

theorem harmony_score_range (rgb1 rgb2 : ℤ × ℤ × ℤ) :
    1/2 ≤ harmonyOfRgb rgb1 rgb2 ∧ harmonyOfRgb rgb1 rgb2 ≤ 1 := by
  obtain ⟨hb1, hb2⟩ := harmonyBase_bounds
    (hueDiff (rgb_to_hsv rgb1).1 (rgb_to_hsv rgb2).1)
  simp only [harmonyOfRgb]
  by_cases hn : (rgb_to_hsv rgb1).2.1 < 20 ∨ (rgb_to_hsv rgb2).2.1 < 20
  · rw [if_pos hn]; exact ⟨by norm_num, by norm_num⟩
  · rw [if_neg hn]
    by_cases hm : hueDiff (rgb_to_hsv rgb1).1 (rgb_to_hsv rgb2).1 < 15
    · rw [if_pos hm]
      split_ifs
      · exact ⟨by norm_num, by norm_num⟩
      · exact ⟨by norm_num, by norm_num⟩
    · rw [if_neg hm]
      exact adjust_bounds _ hb1 hb2 _ _

/-! ## C4: scheme classification -/

/-- C4: `get_color_scheme_type` returns `neutral` when either saturation is
below 20 and otherwise classifies the circular hue difference by the listed
bands in the listed order, with `custom` as fallback; red vs cyan is
`complementary` and scores 0.95. -/
theorem scheme_type_classification :
    (∀ rgb1 rgb2 : ℤ × ℤ × ℤ, schemeTypeOfRgb rgb1 rgb2 = claimSchemeC4 rgb1 rgb2) ∧
    get_color_scheme_type "#FF0000" "#00FFFF" = some "complementary" ∧
    are_colors_harmonious "#FF0000" "#00FFFF" = some 0.95 := by
  refine ⟨?_, by with_unfolding_all decide, by with_unfolding_all decide⟩
  intro rgb1 rgb2
  obtain ⟨b1, b1'⟩ := rgb_to_hsv_hue_bounds rgb1
  obtain ⟨b2, b2'⟩ := rgb_to_hsv_hue_bounds rgb2
  have deq := hueDiff_eq_min b1 b1' b2 b2'
  simp only [schemeTypeOfRgb, claimSchemeC4, deq]

/-! ## C1: color naming (corrected) -/

/-- C1 counterexample: at crimson `(220, 20, 60)` (hex `#dc143c`) the
two-tier algorithm of the claim names the exact table entry `"Crimson"`,
but the program's effective `get_color_name` (the second, shadowing
definition) returns the hue-bucket name `"Red"`. -/
theorem color_name_counterexample :
    get_color_name "#dc143c" = some "Red" ∧
    claimNameC1 (220, 20, 60) = "Crimson" ∧
    get_color_name "#dc143c" ≠ some (claimNameC1 (220, 20, 60)) := by
  refine ⟨by with_unfolding_all decide, by with_unfolding_all decide,
    by with_unfolding_all decide⟩

/-- C1 amended: the effective `get_color_name` ignores the color table and
classifies by saturation tier (White / Black / Gray) and hue buckets
only. -/
theorem color_name_amended (hex : String) (rgb : ℤ × ℤ × ℤ)
    (h : hex_to_rgb hex = some rgb) :
    get_color_name hex = some (amendedNameC1 rgb) := by
  simp only [get_color_name, amendedNameC1, h, Option.map_some']

/-- Witness for the amended C1 at pure blue. -/
theorem color_name_amended_witness :
    get_color_name "#0000ff" = some (amendedNameC1 (0, 0, 255)) ∧
    amendedNameC1 (0, 0, 255) = "Blue" :=
  ⟨color_name_amended "#0000ff" (0, 0, 255) (by with_unfolding_all decide),
    by with_unfolding_all decide⟩

/-! ## C9: hex parsing (corrected) -/

/-- C9 counterexample: `"aabbcc"` is not `'#'` followed by six hex digits,
yet `hex_to_rgb` parses it successfully (as does `"#aabbccdd"`, whose tail
is ignored) — malformed input does not always fail. -/
theorem hex_parse_counterexample :
    isCanonicalHex "aabbcc" = false ∧ hex_to_rgb "aabbcc" = some (170, 187, 204) ∧
    isCanonicalHex "#aabbccdd" = false ∧ hex_to_rgb "#aabbccdd" = some (170, 187, 204) ∧
    hex_to_rgb "red" = none := by
  refine ⟨by with_unfolding_all decide, by with_unfolding_all decide,
    by with_unfolding_all decide, by with_unfolding_all decide,
    by with_unfolding_all decide⟩

theorem hexDigit_gt (c : Char) (h : (hexDigit? c).isSome = true) : '-' < c := by
  unfold hexDigit? at h
  split_ifs at h with h1 h2 h3
  · exact lt_of_lt_of_le (by decide) h1.1
  · exact lt_of_lt_of_le (by decide) h2.1
  · exact lt_of_lt_of_le (by decide) h3.1
  · simp at h

theorem hexDigit_not_special (c : Char) (h : (hexDigit? c).isSome = true) :
    c.isWhitespace = false ∧ c ≠ '+' ∧ c ≠ '-' ∧ c ≠ '#' := by
  have hgt := hexDigit_gt c h
  have w1 : c ≠ ' ' := (lt_of_le_of_lt (by decide) hgt).ne'
  have w2 : c ≠ '\t' := (lt_of_le_of_lt (by decide) hgt).ne'
  have w3 : c ≠ '\r' := (lt_of_le_of_lt (by decide) hgt).ne'
  have w4 : c ≠ '\n' := (lt_of_le_of_lt (by decide) hgt).ne'
  refine ⟨?_, (lt_of_le_of_lt (by decide) hgt).ne', hgt.ne',
    (lt_of_le_of_lt (by decide) hgt).ne'⟩
  simp [Char.isWhitespace, w1, w2, w3, w4]

theorem pyIntHex16_two (a b : Char) (ha : (hexDigit? a).isSome = true)
    (hb : (hexDigit? b).isSome = true) : (pyIntHex16 [a, b]).isSome = true := by
  obtain ⟨da, hda⟩ := Option.isSome_iff_exists.mp ha
  obtain ⟨db, hdb⟩ := Option.isSome_iff_exists.mp hb
  obtain ⟨wsa, hpa, hma, -⟩ := hexDigit_not_special a ha
  obtain ⟨wsb, -, -, -⟩ := hexDigit_not_special b hb
  have hstrip : pyStrip [a, b] = [a, b] := by
    simp [pyStrip, List.dropWhile_cons, wsa, wsb]
  unfold pyIntHex16
  rw [hstrip]
  simp [hpa, hma, hexDigits?, hda, hdb]

/-- C9 amended: every string of the form `'#'` followed by six hexadecimal
digits parses successfully (failure happens only when one of the three
two-character slices after stripping leading `'#'`s is not a hex integer,
and the failure is a generic `ValueError`, not a dedicated
`InvalidColorFormat`). -/
theorem hex_parse_amended (s : String) (h : isCanonicalHex s = true) :
    (hex_to_rgb s).isSome = true := by
  unfold isCanonicalHex at h
  rcases hd : s.data with _ | ⟨c, rest⟩
  · rw [hd] at h; simp at h
  · rw [hd] at h
    simp only [Bool.and_eq_true, beq_iff_eq, List.all_eq_true] at h
    obtain ⟨⟨hc, hlen⟩, hall⟩ := h
    subst hc
    obtain ⟨a, r1, rfl⟩ := List.exists_of_length_succ rest hlen
    simp only [List.length_cons, Nat.succ_inj] at hlen
    obtain ⟨b, r2, rfl⟩ := List.exists_of_length_succ r1 hlen
    simp only [List.length_cons, Nat.succ_inj] at hlen
    obtain ⟨c2, r3, rfl⟩ := List.exists_of_length_succ r2 hlen
    simp only [List.length_cons, Nat.succ_inj] at hlen
    obtain ⟨d, r4, rfl⟩ := List.exists_of_length_succ r3 hlen
    simp only [List.length_cons, Nat.succ_inj] at hlen
    obtain ⟨e, r5, rfl⟩ := List.exists_of_length_succ r4 hlen
    simp only [List.length_cons, Nat.succ_inj] at hlen
    obtain ⟨f, r6, rfl⟩ := List.exists_of_length_succ r5 hlen
    simp only [List.length_cons, Nat.succ_inj] at hlen
    have hr6 : r6 = [] := List.length_eq_zero.mp hlen
    subst hr6
    have ha := hall a (by simp)
    have hb := hall b (by simp)
    have hc2 := hall c2 (by simp)
    have hdd := hall d (by simp)
    have he := hall e (by simp)
    have hf := hall f (by simp)
    have hnh : a ≠ '#' := (hexDigit_not_special a ha).2.2.2
    have hdw : ('#' :: a :: b :: c2 :: d :: e :: f :: []).dropWhile (· = '#') =
        a :: b :: c2 :: d :: e :: f :: [] := by
      simp [List.dropWhile_cons, hnh]
    obtain ⟨p1, e1⟩ := Option.isSome_iff_exists.mp (pyIntHex16_two a b ha hb)
    obtain ⟨p2, e2⟩ := Option.isSome_iff_exists.mp (pyIntHex16_two c2 d hc2 hdd)
    obtain ⟨p3, e3⟩ := Option.isSome_iff_exists.mp (pyIntHex16_two e f he hf)
    unfold hex_to_rgb
    rw [hd, hdw]
    simp only [List.take, List.drop]
    rw [e1, e2, e3]
    rfl

/-- Witness for the amended C9 at `"#00ff00"`. -/
theorem hex_parse_amended_witness : (hex_to_rgb "#00ff00").isSome = true :=
  hex_parse_amended "#00ff00" (by with_unfolding_all decide)

/-! ## C6: the outfit score is the fixed weighted sum -/

/-- C6: for every non-empty outfit the score equals
`0.40·colorHarmony + 0.30·styleSimilarity + 0.20·occasionFit + 0.10·variety`
with `variety = min(itemCount/3, 1)`. -/
theorem outfit_score_weighted_sum (simFn : Emb → Emb → ℚ) (items : List Item)
    (occasion : String) (rules : Rules) (h : items ≠ []) :
    _calculate_outfit_score simFn items occasion rules =
      0.40 * _calculate_color_harmony items rules.colorStyle +
      0.30 * _calculate_style_similarity simFn items +
      0.20 * _calculate_occasion_fit items rules +
      0.10 * min ((items.length : ℚ) / 3) 1 := by
  simp only [_calculate_outfit_score]
  rw [if_neg h]
  ring

/-- Witness for C6 on the concrete top+bottom outfit. -/
theorem outfit_score_weighted_sum_witness :
    _calculate_outfit_score simFn0 wardrobeTB "casual" casualRules =
      0.40 * _calculate_color_harmony wardrobeTB casualRules.colorStyle +
      0.30 * _calculate_style_similarity simFn0 wardrobeTB +
      0.20 * _calculate_occasion_fit wardrobeTB casualRules +
      0.10 * min ((wardrobeTB.length : ℚ) / 3) 1 :=
  outfit_score_weighted_sum simFn0 wardrobeTB "casual" casualRules
    (by with_unfolding_all decide)

/-! ## C5: pattern validity (corrected) -/

set_option maxRecDepth 8000 in
/-- C5 counterexample: the pattern `(dress, other, shoes)` is outside the
claim's list of allowed type sets (it is neither a base set nor a base set
plus shoes), yet the enumerator validates it — the shoes branch only checks
that the rest CONTAINS a dress — and produces an outfit from a wardrobe
with one dress, one `other` item and one pair of shoes. -/
theorem pattern_validity_counterexample :
    claimAllowedC5 ["dress", "other", "shoes"] = false ∧
    _generate_combinations simFn0 (groupByType wardrobeDOS) ["dress", "other", "shoes"]
      "casual" casualRules 5 ≠ [] := by
  refine ⟨by with_unfolding_all decide, by with_unfolding_all decide⟩

/-- C5 amended: the enumerator produces outfits only for duplicate-free
patterns passing the code's validity check (`patternValid`): type set
exactly `{dress}`, or containing top+bottom, or blazer+dress, or shoes
together with a remainder containing top+bottom, or a dress, or
blazer+top+bottom; all other patterns (and duplicated-type patterns)
yield the empty list, not an error. -/
theorem generate_combinations_validity (simFn : Emb → Emb → ℚ)
    (itemsByType : String → List Item) (pattern : List String) (occasion : String)
    (rules : Rules) (cap : ℕ)
    (h : _generate_combinations simFn itemsByType pattern occasion rules cap ≠ []) :
    pattern.Nodup ∧ patternValid pattern = true := by
  unfold _generate_combinations at h
  split_ifs at h with h1 h2 h3
  · exact ⟨h2, h3⟩
  · exact absurd rfl h
  · exact absurd rfl h
  · exact absurd rfl h

/-- Witness for the amended C5 on the concrete dress+other+shoes request. -/
theorem generate_combinations_validity_witness :
    (["dress", "other", "shoes"] : List String).Nodup ∧
    patternValid ["dress", "other", "shoes"] = true :=
  generate_combinations_validity simFn0 (groupByType wardrobeDOS)
    ["dress", "other", "shoes"] "casual" casualRules 5 (by with_unfolding_all decide)

/-! ## Enumeration machinery for C7 and C8 -/

theorem completedOutfit_spec (simFn : Emb → Emb → ℚ) (occasion : String) (rules : Rules)
    (current : List Item) (o : Outfit)
    (h : o ∈ (completedOutfit simFn occasion rules current).toList) :
    1/2 ≤ o.score ∧ (o.items.map (fun it => it.type?)).Nodup := by
  simp only [completedOutfit] at h
  split_ifs at h with h1 h2
  · simp only [Option.toList_some, List.mem_singleton] at h
    subst h
    constructor
    · calc (1/2 : ℚ) = 0.50 := by norm_num
        _ ≤ _ := h2
    · exact h1
  · simp at h
  · simp at h

theorem mem_genAll_spec (ctx : RecCtx) :
    ∀ (rem : List String) (current : List Item) (used : List String) (o : Outfit),
      o ∈ genAll ctx rem current used →
      1/2 ≤ o.score ∧ (o.items.map (fun it => it.type?)).Nodup := by
  intro rem
  induction rem with
  | nil =>
    intro current used o ho
    exact completedOutfit_spec _ _ _ _ _ (by simpa [genAll] using ho)
  | cons t rest ih =>
    intro current used o ho
    rw [genAll] at ho
    split_ifs at ho
    · simp at ho
    · rw [List.mem_flatMap] at ho
      obtain ⟨item, -, ho⟩ := ho
      exact ih _ _ _ ho

theorem genRec_cap_full (ctx : RecCtx) (cap : ℕ) (t : String) (rest : List String)
    (current : List Item) (used : List String) :
    ∀ (items : List Item) (acc : List Outfit), cap ≤ acc.length →
      items.foldl (fun acc2 item =>
        if acc2.length ≥ cap then acc2
        else if item.type? ≠ some t then acc2
        else genRec ctx cap rest (current ++ [item]) (used ++ [t]) acc2) acc = acc := by
  intro items
  induction items with
  | nil => intro acc _; rfl
  | cons item more ihm =>
    intro acc h
    simp only [List.foldl_cons]
    rw [if_pos (by omega : acc.length ≥ cap)]
    exact ihm acc h

theorem genRec_foldl_take (ctx : RecCtx) (cap : ℕ) (t : String) (rest : List String)
    (current : List Item) (used : List String)
    (IH : ∀ (current' : List Item) (used' : List String) (acc' : List Outfit),
      (rest = [] → acc'.length < cap) →
      genRec ctx cap rest current' used' acc' =
        acc' ++ (genAll ctx rest current' used').take (cap - acc'.length)) :
    ∀ (items : List Item) (acc : List Outfit), acc.length ≤ cap →
      items.foldl (fun acc2 item =>
        if acc2.length ≥ cap then acc2
        else if item.type? ≠ some t then acc2
        else genRec ctx cap rest (current ++ [item]) (used ++ [t]) acc2) acc =
      acc ++ ((items.filter fun item => item.type? = some t).flatMap
        fun item => genAll ctx rest (current ++ [item]) (used ++ [t])).take
          (cap - acc.length) := by
  intro items
  induction items with
  | nil => intro acc _; simp
  | cons item more ihm =>
    intro acc hle
    simp only [List.foldl_cons, List.filter_cons]
    by_cases hful : cap ≤ acc.length
    · rw [if_pos (by omega : acc.length ≥ cap),
        genRec_cap_full ctx cap t rest current used more acc hful,
        (by omega : cap - acc.length = 0)]
      simp
    · have hlt : acc.length < cap := by omega
      rw [if_neg (by omega : ¬ acc.length ≥ cap)]
      by_cases htype : item.type? = some t
      · rw [if_neg (by simp [htype] : ¬ item.type? ≠ some t),
          IH (current ++ [item]) (used ++ [t]) acc (fun _ => hlt)]
        have hlen2 : (acc ++ (genAll ctx rest (current ++ [item])
            (used ++ [t])).take (cap - acc.length)).length ≤ cap := by
          simp only [List.length_append, List.length_take]
          omega
        rw [ihm _ hlen2]
        have hexp : cap - (acc ++ (genAll ctx rest (current ++ [item])
            (used ++ [t])).take (cap - acc.length)).length =
            (cap - acc.length) - (genAll ctx rest (current ++ [item])
              (used ++ [t])).length := by
          simp only [List.length_append, List.length_take]
          omega
        rw [hexp]
        simp [htype, List.take_append_eq_append_take]
      · rw [if_pos (by simp [htype] : item.type? ≠ some t)]
        rw [ihm acc hle]
        simp [htype]

theorem genRec_eq_take (ctx : RecCtx) (cap : ℕ) :
    ∀ (rem : List String) (current : List Item) (used : List String) (acc : List Outfit),
      (rem = [] → acc.length < cap) →
      genRec ctx cap rem current used acc =
        acc ++ (genAll ctx rem current used).take (cap - acc.length) := by
  intro rem
  induction rem with
  | nil =>
    intro current used acc hlt
    have hc := hlt rfl
    rw [genRec, genAll]
    congr 1
    rcases completedOutfit ctx.simFn ctx.occasion ctx.rules current with _ | o
    · simp
    · obtain ⟨k, hk⟩ : ∃ k, cap - acc.length = k + 1 := ⟨cap - acc.length - 1, by omega⟩
      rw [hk]
      simp
  | cons t rest ih =>
    intro current used acc _
    rw [genRec, genAll]
    by_cases hful : cap ≤ acc.length
    · rw [if_pos (by omega : acc.length ≥ cap), (by omega : cap - acc.length = 0)]
      simp
    · rw [if_neg (by omega : ¬ acc.length ≥ cap)]
      by_cases hused : used.contains t
      · rw [if_pos hused, if_pos hused]
        simp
      · rw [if_neg hused, if_neg hused]
        exact genRec_foldl_take ctx cap t rest current used
          (fun c' u' a' hh => ih c' u' a' hh) _ acc (by omega)

theorem patternValid_ne_nil (p : List String) (h : patternValid p = true) : p ≠ [] := by
  rintro rfl
  revert h
  decide

theorem generate_combinations_eq_take (simFn : Emb → Emb → ℚ)
    (itemsByType : String → List Item) (pattern : List String) (occasion : String)
    (rules : Rules) (cap : ℕ) :
    _generate_combinations simFn itemsByType pattern occasion rules cap =
      (genCombosAll ⟨simFn, itemsByType, occasion, rules⟩ pattern).take cap := by
  unfold _generate_combinations genCombosAll
  split_ifs with h1 h2 h3
  · have hne : pattern ≠ [] := patternValid_ne_nil pattern h3
    rw [genRec_eq_take _ cap pattern [] [] [] (fun he => absurd he hne)]
    simp
  · simp
  · simp
  · simp

theorem tryPatterns_eq_take (simFn : Emb → Emb → ℚ) (itemsByType : String → List Item)
    (occasion : String) (rules : Rules) (max_outfits : ℕ) :
    ∀ (ps : List (List String)) (acc : List Outfit), acc.length ≤ max_outfits →
      tryPatterns simFn itemsByType occasion rules max_outfits ps acc =
        acc ++ (ps.flatMap (genCombosAll ⟨simFn, itemsByType, occasion, rules⟩)).take
          (max_outfits - acc.length) := by
  intro ps
  induction ps with
  | nil => intro acc _; simp [tryPatterns]
  | cons p ps ihp =>
    intro acc hle
    simp only [tryPatterns]
    rw [generate_combinations_eq_take]
    by_cases hful : (acc ++ ((genCombosAll ⟨simFn, itemsByType, occasion,
        rules⟩ p).take (max_outfits - acc.length))).length ≥ max_outfits
    · rw [if_pos hful, List.flatMap_cons, List.take_append_eq_append_take]
      have h0 : max_outfits - acc.length -
          (genCombosAll ⟨simFn, itemsByType, occasion, rules⟩ p).length = 0 := by
        simp only [List.length_append, List.length_take] at hful
        omega
      rw [h0]
      simp
    · rw [if_neg hful]
      have hle2 : (acc ++ ((genCombosAll ⟨simFn, itemsByType, occasion,
          rules⟩ p).take (max_outfits - acc.length))).length ≤ max_outfits := by
        simp only [List.length_append, List.length_take] at hful ⊢
        omega
      rw [ihp _ hle2]
      have hexp : max_outfits - (acc ++ ((genCombosAll ⟨simFn, itemsByType, occasion,
          rules⟩ p).take (max_outfits - acc.length))).length =
          (max_outfits - acc.length) -
            (genCombosAll ⟨simFn, itemsByType, occasion, rules⟩ p).length := by
        simp only [List.length_append, List.length_take] at hful ⊢
        omega
      rw [hexp, List.flatMap_cons, List.take_append_eq_append_take, List.append_assoc]

theorem recommend_eq_sort_take (simFn : Emb → Emb → ℚ) (items : List Item)
    (occasion : String) (max_outfits : ℕ) (h : items ≠ []) :
    recommend_outfits simFn items occasion max_outfits =
      (sortByScoreDesc ((allCandidates ⟨simFn, groupByType items, occasion,
        occasionRulesFor occasion⟩).take max_outfits)).take max_outfits := by
  simp only [recommend_outfits]
  rw [if_neg ((fun hh => h (List.isEmpty_iff.mp hh)) : ¬ items.isEmpty = true)]
  rw [tryPatterns_eq_take simFn (groupByType items) occasion (occasionRulesFor occasion)
    max_outfits (occasionRulesFor occasion).combos [] (by simp)]
  simp [allCandidates]

/-! ## Stable sort lemmas -/

theorem mem_insertScored (o x : Outfit) : ∀ l, x ∈ insertScored o l ↔ x = o ∨ x ∈ l := by
  intro l
  induction l with
  | nil => simp [insertScored]
  | cons y ys ih =>
    simp only [insertScored]
    split_ifs
    · simp only [List.mem_cons, ih]
      tauto
    · simp only [List.mem_cons]

theorem length_insertScored (o : Outfit) : ∀ l, (insertScored o l).length = l.length + 1 := by
  intro l
  induction l with
  | nil => rfl
  | cons y ys ih =>
    simp only [insertScored]
    split_ifs
    · simp [ih]
    · simp

theorem sortFold_mem (x : Outfit) :
    ∀ (l acc : List Outfit),
      (x ∈ l.foldl (fun a o => insertScored o a) acc ↔ x ∈ acc ∨ x ∈ l) := by
  intro l
  induction l with
  | nil => intro acc; simp
  | cons y ys ih =>
    intro acc
    simp only [List.foldl_cons]
    rw [ih, mem_insertScored]
    simp only [List.mem_cons]
    tauto

theorem mem_sortByScoreDesc (x : Outfit) (l : List Outfit) :
    x ∈ sortByScoreDesc l ↔ x ∈ l := by
  unfold sortByScoreDesc
  rw [sortFold_mem]
  simp

theorem sortFold_length :
    ∀ (l acc : List Outfit),
      (l.foldl (fun a o => insertScored o a) acc).length = acc.length + l.length := by
  intro l
  induction l with
  | nil => intro acc; simp
  | cons y ys ih =>
    intro acc
    simp only [List.foldl_cons]
    rw [ih, length_insertScored]
    simp only [List.length_cons]
    omega

theorem length_sortByScoreDesc (l : List Outfit) :
    (sortByScoreDesc l).length = l.length := by
  unfold sortByScoreDesc
  rw [sortFold_length]
  simp

theorem pairwise_insertScored (o : Outfit) :
    ∀ l, l.Pairwise (fun a b => b.score ≤ a.score) →
      (insertScored o l).Pairwise (fun a b => b.score ≤ a.score) := by
  intro l
  induction l with
  | nil => intro _; simp [insertScored]
  | cons y ys ih =>
    intro h
    rw [List.pairwise_cons] at h
    obtain ⟨hy, hys⟩ := h
    simp only [insertScored]
    split_ifs with hsc
    · rw [List.pairwise_cons]
      refine ⟨?_, ih hys⟩
      intro b hb
      rcases (mem_insertScored o b ys).mp hb with rfl | hbys
      · exact hsc
      · exact hy b hbys
    · rw [List.pairwise_cons]
      refine ⟨?_, List.pairwise_cons.mpr ⟨hy, hys⟩⟩
      intro b hb
      rcases List.mem_cons.mp hb with rfl | hbys
      · linarith [not_le.mp hsc]
      · have := hy b hbys
        linarith [not_le.mp hsc]

theorem pairwise_sortFold :
    ∀ (l acc : List Outfit), acc.Pairwise (fun a b => b.score ≤ a.score) →
      (l.foldl (fun a o => insertScored o a) acc).Pairwise
        (fun a b => b.score ≤ a.score) := by
  intro l
  induction l with
  | nil => intro acc h; simpa using h
  | cons y ys ih =>
    intro acc h
    simp only [List.foldl_cons]
    exact ih _ (pairwise_insertScored y acc h)

theorem pairwise_sortByScoreDesc (l : List Outfit) :
    (sortByScoreDesc l).Pairwise (fun a b => b.score ≤ a.score) :=
  pairwise_sortFold l [] (by simp)

theorem mem_allCandidates_spec (ctx : RecCtx) (o : Outfit) (h : o ∈ allCandidates ctx) :
    1/2 ≤ o.score ∧ (o.items.map (fun it => it.type?)).Nodup := by
  unfold allCandidates at h
  rw [List.mem_flatMap] at h
  obtain ⟨p, -, hp⟩ := h
  unfold genCombosAll at hp
  split_ifs at hp
  · exact mem_genAll_spec ctx p [] [] o hp
  · simp at hp
  · simp at hp
  · simp at hp

/-! ## C7: well-formedness of the returned list -/

/-- C7: every list returned by `recommend_outfits` contains only outfits
with score ≥ 0.50 and duplicate-free item types, is sorted by descending
score, and has length at most `max_outfits`. -/
theorem recommend_wellformed (simFn : Emb → Emb → ℚ) (items : List Item)
    (occasion : String) (max_outfits : ℕ) :
    (∀ o ∈ recommend_outfits simFn items occasion max_outfits,
      1/2 ≤ o.score ∧ (o.items.map (fun it => it.type?)).Nodup) ∧
    (recommend_outfits simFn items occasion max_outfits).Pairwise
      (fun a b => b.score ≤ a.score) ∧
    (recommend_outfits simFn items occasion max_outfits).length ≤ max_outfits := by
  by_cases h : items = []
  · subst h
    simp [recommend_outfits]
  · simp only [recommend_eq_sort_take simFn items occasion max_outfits h]
    refine ⟨?_, ?_, ?_⟩
    · intro o ho
      have h1 := List.take_subset _ _ ho
      have h2 := (mem_sortByScoreDesc o _).mp h1
      have h3 := List.take_subset _ _ h2
      exact mem_allCandidates_spec _ o h3
    · exact (pairwise_sortByScoreDesc _).sublist (List.take_sublist _ _)
    · exact List.length_take_le _ _

set_option maxRecDepth 2000 in
/-- Witness for C7 on the concrete one-dress wardrobe. -/
theorem recommend_wellformed_witness :
    1/2 ≤ ((recommend_outfits simFn0 [iDress] "casual" 5).headI).score ∧
    (recommend_outfits simFn0 [iDress] "casual" 5).length ≤ 5 :=
  ⟨((recommend_wellformed simFn0 [iDress] "casual" 5).1 _
      (by with_unfolding_all decide)).1,
    (recommend_wellformed simFn0 [iDress] "casual" 5).2.2⟩

/-! ## C8: monotonicity in the outfit cap -/

/-- C8: every outfit returned with `max_outfits = m` is also returned with
`max_outfits = m + 1`: the uncapped discovery sequence is fixed, a cap of
`m` collects its first `m` elements, and sorting a superset never drops a
member. -/
theorem recommend_monotone (simFn : Emb → Emb → ℚ) (items : List Item)
    (occasion : String) (m : ℕ) :
    ∀ o ∈ recommend_outfits simFn items occasion m,
      o ∈ recommend_outfits simFn items occasion (m + 1) := by
  intro o ho
  by_cases h : items = []
  · subst h
    simp [recommend_outfits] at ho
  · rw [recommend_eq_sort_take simFn items occasion m h] at ho
    rw [recommend_eq_sort_take simFn items occasion (m + 1) h]
    rw [List.take_of_length_le (by
      rw [length_sortByScoreDesc]; exact List.length_take_le _ _)] at ho
    have h1 := (mem_sortByScoreDesc o _).mp ho
    have h2 : o ∈ (allCandidates ⟨simFn, groupByType items, occasion,
        occasionRulesFor occasion⟩).take (m + 1) := by
      have heq : (allCandidates ⟨simFn, groupByType items, occasion,
          occasionRulesFor occasion⟩).take m =
          ((allCandidates ⟨simFn, groupByType items, occasion,
            occasionRulesFor occasion⟩).take (m + 1)).take m := by
        rw [List.take_take]
        congr 1
        omega
      rw [heq] at h1
      exact List.take_subset _ _ h1
    rw [List.take_of_length_le (by
      rw [length_sortByScoreDesc]; exact List.length_take_le _ _)]
    exact (mem_sortByScoreDesc o _).mpr h2

set_option maxRecDepth 2000 in
/-- Witness for C8: the single outfit found with cap 1 is still returned
with cap 2. -/
theorem recommend_monotone_witness :
    (recommend_outfits simFn0 [iDress] "casual" 1).headI ∈
      recommend_outfits simFn0 [iDress] "casual" 2 :=
  recommend_monotone simFn0 [iDress] "casual" 1 _ (by with_unfolding_all decide)

end FashionAI
